import Mathlib

/-!
Shallow embedding of the `bulb_manager` module (src/src/lib.rs) of the
lifx repository.

Modelling conventions:
* Machine integers (`u8`, `u16`, `u32`, `u64`) become `Nat`; the source
  performs no wrapping arithmetic on the paths embedded here (the only
  additions are `seq % 255 + 1`, bounded by 255, and `index + 7`, which
  is compared against a `u16` count — a `u16` overflow of `index + 7`
  would itself panic in the source, and in the `Nat` model the
  comparison `index + 7 ≤ count` is then false, which the model also
  maps to the panic outcome, matching the source).
* `Instant` becomes a `Nat` timestamp in seconds, passed explicitly as
  `now` to every operation that calls `Instant::now()`; `Duration`
  becomes a `Nat` number of seconds.
* A Rust panic (a failed `assert!`, an out-of-bounds `Vec` index, or
  `Option::unwrap` on `None`) is modelled as the `none` value of an
  `Option`-returning function.
* The external capability table `lifx_core::get_product_info` is a
  parameter of type `ProductLookup`; the socket send pipeline
  (`RawMessage::build`, `pack`, `UdpSocket::send_to`) is a parameter
  `send : Message → Except SendError Unit`.
* `CString` labels become `String`; the fixed `Box<[HSBK; 82]>` color
  array becomes `List HSBK` (its length plays no role in the embedded
  paths); `Vec<Option<HSBK>>` becomes `List (Option HSBK)`.
-/

namespace BulbManager

/-- `lifx_core::HSBK`: four `u16` channels. -/
structure HSBK where
  hue : Nat
  saturation : Nat
  brightness : Nat
  kelvin : Nat
  deriving DecidableEq

/-- `lifx_core::Service`; only the UDP discrimination matters to the code. -/
inductive Service where
  | UDP
  | Reserved
  deriving DecidableEq

/-- `lifx_core::ApplicationRequest`. -/
inductive ApplicationRequest where
  | NoApply
  | Apply
  | ApplyOnly
  deriving DecidableEq

/-- `lifx_core::PowerLevel` (Standby = 0, Enabled = 65535). -/
inductive PowerLevel where
  | Standby
  | Enabled
  deriving DecidableEq

/-- The `lifx_core::Message` constructors the module builds or matches on. -/
inductive Message where
  | GetService
  | StateService (port : Nat) (service : Service)
  | GetLabel
  | StateLabel (label : String)
  | GetLocation
  | StateLocation (label : String)
  | GetVersion
  | StateVersion (vendor : Nat) (product : Nat)
  | GetPower
  | StatePower (level : Nat)
  | SetPower (level : PowerLevel)
  | LightSetPower (level : Nat) (duration : Nat)
  | LightGet
  | LightState (color : HSBK) (power : Nat) (label : String)
  | GetHostFirmware
  | StateHostFirmware (version_major : Nat) (version_minor : Nat)
  | GetWifiFirmware
  | StateWifiFirmware (version_major : Nat) (version_minor : Nat)
  | LightSetColor (color : HSBK) (duration : Nat)
  | GetColorZones (start_index : Nat) (end_index : Nat)
  | StateZone (count : Nat) (index : Nat) (color : HSBK)
  | StateMultiZone (count : Nat) (index : Nat)
      (color0 color1 color2 color3 color4 color5 color6 color7 : HSBK)
  | GetExtendedColorZones
  | StateExtendedColorZones (zones_count : Nat) (zone_index : Nat)
      (colors_count : Nat) (colors : List HSBK)
  | SetExtendedColorZones (duration : Nat) (apply : ApplicationRequest)
      (zone_index : Nat) (colors_count : Nat) (colors : List HSBK)
  | Acknowledgement (seq : Nat)
  deriving DecidableEq

/-- `const HOUR: Duration = Duration::from_secs(60 * 60)`. -/
def HOUR : Nat := 60 * 60

/-- `struct RefreshableData<T>`. -/
structure RefreshableData (T : Type) where
  data : Option T
  max_age : Nat
  last_updated : Nat
  refresh_msg : Message
  deriving DecidableEq

namespace RefreshableData

/-- `RefreshableData::empty`; `now` stands for the `Instant::now()` call. -/
def empty (T : Type) (max_age : Nat) (refresh_msg : Message) (now : Nat) :
    RefreshableData T :=
  { data := none, max_age := max_age, last_updated := now,
    refresh_msg := refresh_msg }

/-- `RefreshableData::update`: overwrite the value, reset the timestamp. -/
def update {T : Type} (d : RefreshableData T) (now : Nat) (v : T) :
    RefreshableData T :=
  { d with data := some v, last_updated := now }

/-- `RefreshableData::needs_refresh`:
`self.data.is_none() || self.last_updated.elapsed() > self.max_age`. -/
def needs_refresh {T : Type} (d : RefreshableData T) (now : Nat) : Bool :=
  d.data.isNone || decide (now - d.last_updated > d.max_age)

/-- `RefreshableData::as_ref` (the spec's `current()`). -/
def as_ref {T : Type} (d : RefreshableData T) : Option T :=
  d.data

end RefreshableData

/-- `struct Zones`. -/
structure Zones where
  zones_count : Nat
  zone_index : Nat
  colors_count : Nat
  colors : List HSBK
  deriving DecidableEq

/-- `enum Color`. -/
inductive Color where
  | Unknown
  | Single (d : RefreshableData HSBK)
  | Multi (d : RefreshableData (List (Option HSBK)))
  deriving DecidableEq

/-- The bare variant of a `Color`, for stating state-machine facts. -/
inductive ColorTag where
  | unknown
  | single
  | multi
  deriving DecidableEq

/-- Project a `Color` to its variant tag. -/
def Color.tag : Color → ColorTag
  | Color.Unknown => ColorTag.unknown
  | Color.Single _ => ColorTag.single
  | Color.Multi _ => ColorTag.multi

/-- `lifx_core::BuildOptions` (the fields the module reads or writes). -/
structure BuildOptions where
  target : Option Nat
  ack_required : Bool
  res_required : Bool
  source : Nat
  sequence : Nat
  deriving DecidableEq

/-- A socket address: IP (abstracted to a `Nat`) and port. -/
structure SocketAddr where
  ip : Nat
  port : Nat
  deriving DecidableEq

/-- `struct BulbInfo`. -/
structure BulbInfo where
  last_seen : Nat
  options : BuildOptions
  addr : SocketAddr
  name : RefreshableData String
  model : RefreshableData (Nat × Nat)
  location : RefreshableData String
  host_firmware : RefreshableData (Nat × Nat)
  wifi_firmware : RefreshableData (Nat × Nat)
  power_level : RefreshableData Nat
  zones : RefreshableData Zones
  color : Color
  deriving DecidableEq

/-- `lifx_core::ProductInfo` (the two capability flags the module reads). -/
structure ProductInfo where
  multizone : Bool
  extended : Bool
  deriving DecidableEq

/-- The external `lifx_core::get_product_info` table, taken as a parameter:
vendor → product → capability record. -/
def ProductLookup : Type := Nat → Nat → Option ProductInfo

namespace BulbInfo

/-- `BulbInfo::new`; `now` stands for the `Instant::now()` calls. -/
def new (source : Nat) (target : Nat) (addr : SocketAddr) (now : Nat) :
    BulbInfo :=
  { last_seen := now
    addr := addr
    options :=
      { target := some target, ack_required := true, res_required := true,
        source := source, sequence := 0 }
    name := RefreshableData.empty String HOUR Message.GetLabel now
    model := RefreshableData.empty (Nat × Nat) HOUR Message.GetVersion now
    location := RefreshableData.empty String HOUR Message.GetLocation now
    host_firmware :=
      RefreshableData.empty (Nat × Nat) HOUR Message.GetHostFirmware now
    wifi_firmware :=
      RefreshableData.empty (Nat × Nat) HOUR Message.GetWifiFirmware now
    power_level := RefreshableData.empty Nat 15 Message.GetPower now
    zones := RefreshableData.empty Zones 15 Message.GetExtendedColorZones now
    color := Color.Unknown }

/-- `BulbInfo::get_colors`: `Ok(self.zones.as_ref().unwrap().colors.clone())`.
The source unwraps the optional zone snapshot, so a record with no zone
data panics; the panic is the `none` outcome, and the `some` outcome is
the payload of the `Ok` the source returns (no `Err` is ever produced). -/
def get_colors (b : BulbInfo) : Option (List HSBK) :=
  match b.zones.as_ref with
  | some z => some z.colors
  | none => none

/-- `BulbInfo::get_length`: `Ok(self.zones.as_ref().unwrap().zones_count)`,
with the same unwrap-panic as `get_colors`. -/
def get_length (b : BulbInfo) : Option Nat :=
  match b.zones.as_ref with
  | some z => some z.zones_count
  | none => none

/-- `BulbInfo::update`: refresh `last_seen` and the address. -/
def update_seen (b : BulbInfo) (addr : SocketAddr) (now : Nat) : BulbInfo :=
  { b with last_seen := now, addr := addr }

end BulbInfo

/-- An error from the outbound pipeline (`RawMessage::build`, `pack`,
`send_to`), abstracted to an opaque code. -/
structure SendError where
  code : Nat
  deriving DecidableEq

/-- Sequencing of two fallible steps, as Rust's `?` chains them: the
first error wins. -/
def seqE (x y : Except SendError Unit) : Except SendError Unit :=
  match x with
  | Except.ok _ => y
  | Except.error e => Except.error e

/-- Write `some c` at eight consecutive positions of the zone vector,
mirroring the eight `v[index + i] = Some(colorI)` assignments of the
`StateMultiZone` arm. -/
def setEight (v : List (Option HSBK)) (index : Nat)
    (c0 c1 c2 c3 c4 c5 c6 c7 : HSBK) : List (Option HSBK) :=
  ((((((((v.set index (some c0)).set (index + 1) (some c1)).set (index + 2)
      (some c2)).set (index + 3) (some c3)).set (index + 4) (some c4)).set
      (index + 5) (some c5)).set (index + 6) (some c6)).set (index + 7)
      (some c7))

/-- `Manager::handle_message` on an already-decoded message. In the source
the only `Err` outcome is a decode failure of `Message::from_raw`, which
happens before any state change; starting from a decoded `Message`, the
function either completes (`some` updated record) or panics (`none`):
a failed `assert!` or an out-of-bounds `Vec` index in the two zone-report
arms. `now` stands for the `Instant::now()` of each `update` call. -/
def handle_message (lookup : ProductLookup) (msg : Message) (bulb : BulbInfo)
    (now : Nat) : Option BulbInfo :=
  match msg with
  | Message.StateService _ _ =>
      -- only logs a mismatch of port/service; no persisted state change
      some bulb
  | Message.StateLabel label =>
      some { bulb with name := bulb.name.update now label }
  | Message.StateLocation label =>
      some { bulb with location := bulb.location.update now label }
  | Message.StateVersion vendor product =>
      let bulb := { bulb with model := bulb.model.update now (vendor, product) }
      match lookup vendor product with
      | some info =>
          if info.multizone then
            let seeded : Color :=
              Color.Multi (RefreshableData.empty (List (Option HSBK)) 15
                (Message.GetColorZones 0 255) now)
            some { bulb with color := seeded }
          else
            let seeded : Color :=
              Color.Single (RefreshableData.empty HSBK 15 Message.LightGet now)
            some { bulb with color := seeded }
      | none => some bulb
  | Message.StatePower level =>
      some { bulb with power_level := bulb.power_level.update now level }
  | Message.StateHostFirmware major minor =>
      some { bulb with
        host_firmware := bulb.host_firmware.update now (major, minor) }
  | Message.StateWifiFirmware major minor =>
      some { bulb with
        wifi_firmware := bulb.wifi_firmware.update now (major, minor) }
  | Message.LightState color power label =>
      match bulb.color with
      | Color.Single d =>
          some { bulb with
            color := Color.Single (d.update now color),
            power_level := bulb.power_level.update now power,
            name := bulb.name.update now label }
      | _ => some { bulb with name := bulb.name.update now label }
  | Message.StateZone count index color =>
      match bulb.color with
      | Color.Multi d =>
          -- `get_or_insert_with`: on first report allocate `count` empty
          -- slots, with `assert!(index <= count)`; the assignment
          -- `v[index as usize] = Some(color)` panics when out of bounds
          let v0 : Option (List (Option HSBK)) :=
            match d.data with
            | some v => some v
            | none =>
                if index ≤ count then some (List.replicate count none)
                else none
          match v0 with
          | none => none
          | some v =>
              if index < v.length then
                let c : Color :=
                  Color.Multi { d with data := some (v.set index (some color)) }
                some { bulb with color := c }
              else none
      | _ => some bulb
  | Message.StateMultiZone count index c0 c1 c2 c3 c4 c5 c6 c7 =>
      match bulb.color with
      | Color.Multi d =>
          -- same lazy allocation, with `assert!(index + 7 <= count)`;
          -- the eight assignments `v[index + i] = Some(colorI)` panic
          -- unless `index + 7 < v.len()`
          let v0 : Option (List (Option HSBK)) :=
            match d.data with
            | some v => some v
            | none =>
                if index + 7 ≤ count then some (List.replicate count none)
                else none
          match v0 with
          | none => none
          | some v =>
              if index + 7 < v.length then
                let c : Color :=
                  Color.Multi { d with
                    data := some (setEight v index c0 c1 c2 c3 c4 c5 c6 c7) }
                some { bulb with color := c }
              else none
      | _ => some bulb
  | Message.StateExtendedColorZones zones_count zone_index colors_count
      colors =>
      let z : Zones :=
        { zones_count := zones_count, zone_index := zone_index,
          colors_count := colors_count, colors := colors }
      some { bulb with zones := bulb.zones.update now z }
  | Message.Acknowledgement seq =>
      let opts : BuildOptions :=
        { bulb.options with sequence := seq % 255 + 1 }
      some { bulb with options := opts }
  | _ =>
      -- `unknown => println!("Received, but ignored ...")`
      some bulb

namespace BulbInfo

/-- `BulbInfo::toggle_bulb`: branch on the last known power level,
defaulting to Enabled; build and send one `SetPower`. -/
def toggle_bulb (b : BulbInfo) (send : Message → Except SendError Unit) :
    Except SendError Unit :=
  let payload : Message :=
    match b.power_level.as_ref with
    | some level =>
        if level > 0 then Message.SetPower PowerLevel.Standby
        else Message.SetPower PowerLevel.Enabled
    | none => Message.SetPower PowerLevel.Enabled
  send payload

/-- `BulbInfo::set_power_duration`. -/
def set_power_duration (_b : BulbInfo) (level : Nat) (duration : Nat)
    (send : Message → Except SendError Unit) : Except SendError Unit :=
  send (Message.LightSetPower level duration)

/-- `BulbInfo::set_power`. -/
def set_power (_b : BulbInfo) (level : PowerLevel)
    (send : Message → Except SendError Unit) : Except SendError Unit :=
  send (Message.SetPower level)

/-- `BulbInfo::set_bulb_color`. -/
def set_bulb_color (_b : BulbInfo) (color : HSBK) (duration : Nat)
    (send : Message → Except SendError Unit) : Except SendError Unit :=
  send (Message.LightSetColor color duration)

/-- `BulbInfo::set_strip_array`: only when the zone snapshot is present
does it build and send a `SetExtendedColorZones`; otherwise the body is
skipped and `Ok(())` is returned. The result carries the list of
payloads that were sent, so silence is observable. -/
def set_strip_array (b : BulbInfo) (colors : List HSBK) (duration : Nat)
    (send : Message → Except SendError Unit) :
    Except SendError (List Message) :=
  match b.zones.as_ref with
  | some zones =>
      let payload : Message :=
        Message.SetExtendedColorZones duration ApplicationRequest.Apply 0
          zones.colors_count colors
      match send payload with
      | Except.ok _ => Except.ok [payload]
      | Except.error e => Except.error e
  | none => Except.ok []

/-- `BulbInfo::refresh_if_needed`: send the field's refresh query iff the
field is stale. -/
def refresh_if_needed {T : Type} (send : Message → Except SendError Unit)
    (now : Nat) (d : RefreshableData T) : Except SendError Unit :=
  if d.needs_refresh now then send d.refresh_msg else Except.ok ()

/-- `BulbInfo::query_for_missing_info`: probe every stale field in the
source's fixed order, short-circuiting on the first send error (`?`). -/
def query_for_missing_info (lookup : ProductLookup) (b : BulbInfo)
    (send : Message → Except SendError Unit) (now : Nat) :
    Except SendError Unit :=
  seqE (refresh_if_needed send now b.name)
    (seqE (refresh_if_needed send now b.model)
      (seqE (refresh_if_needed send now b.location)
        (seqE (refresh_if_needed send now b.host_firmware)
          (seqE (refresh_if_needed send now b.wifi_firmware)
            (seqE (refresh_if_needed send now b.power_level)
              (seqE
                (match b.color with
                 | Color.Unknown => Except.ok ()
                 | Color.Single d => refresh_if_needed send now d
                 | Color.Multi d => refresh_if_needed send now d)
                (match b.model.as_ref with
                 | some (vendor, product) =>
                     match lookup vendor product with
                     | some info =>
                         if info.extended then
                           refresh_if_needed send now b.zones
                         else Except.ok ()
                     | none => Except.ok ()
                 | none => Except.ok ())))))))

end BulbInfo

/-- `Manager::refresh`: walk the registry's records and run
`query_for_missing_info` on each, unwrapping the result — so a send
error is not returned (the function yields `()`), it panics, modelled
as `none`. -/
def refresh (lookup : ProductLookup) (bulbs : List BulbInfo)
    (send : Message → Except SendError Unit) (now : Nat) : Option Unit :=
  bulbs.foldl
    (fun acc b =>
      match acc with
      | none => none
      | some _ =>
          match BulbInfo.query_for_missing_info lookup b send now with
          | Except.ok _ => some ()
          | Except.error _ => none)
    (some ())

/-- One local network interface as `discover` sees it (the
`get_if_addrs` view): an optional IPv4 broadcast address and whether the
interface is loopback. -/
structure Ifv4 where
  broadcast : Option Nat
  loopback : Bool
  deriving DecidableEq

/-- `Manager::discover`: build one `GetService` query and send it to the
broadcast address of every non-loopback interface that has one,
short-circuiting on the first send error (`?`); interfaces without a
broadcast address are skipped. The interface list is a parameter (the
external enumeration boundary); recording `last_discovery` is a pure
timestamp write with no bearing on the result. -/
def discover (ifaces : List Ifv4) (send : Message → Except SendError Unit) :
    Except SendError Unit :=
  match ifaces with
  | [] => Except.ok ()
  | i :: rest =>
      match i.broadcast with
      | some _ =>
          if i.loopback then discover rest send
          else seqE (send Message.GetService) (discover rest send)
      | none => discover rest send

/-- `Manager::add_bulb`: send one `GetService` query directly to a known
address, surfacing a send failure via `?`. -/
def add_bulb (_addr : SocketAddr) (send : Message → Except SendError Unit) :
    Except SendError Unit :=
  send Message.GetService

/-- The registry: `HashMap<u64, BulbInfo>` as a map from target to record. -/
def Registry : Type := Nat → Option BulbInfo

/-- One iteration of `Manager::worker` for a decoded datagram: drop
identity zero; otherwise look the identity up — on a hit refresh
`last_seen`/`addr` (`and_modify`), on a miss insert a fresh record
(`or_insert_with`) — then apply `handle_message` to that record.
`none` propagates a panic inside `handle_message`. -/
def worker_step (source : Nat) (lookup : ProductLookup) (reg : Registry)
    (target : Nat) (addr : SocketAddr) (msg : Message) (now : Nat) :
    Option Registry :=
  if target = 0 then some reg
  else
    let b : BulbInfo :=
      match reg target with
      | some b => b.update_seen addr now
      | none => BulbInfo.new source target addr now
    match handle_message lookup msg b now with
    | some b2 => some (fun t => if t = target then some b2 else reg t)
    | none => none

/-- The colour seeded on entering the multizone state (the `Color::Multi`
assignment of the `StateVersion` arm). -/
def multiSeed (now : Nat) : Color :=
  Color.Multi (RefreshableData.empty (List (Option HSBK)) 15
    (Message.GetColorZones 0 255) now)

/-- The colour seeded on entering the single-zone state (the `Color::Single`
assignment of the `StateVersion` arm). -/
def singleSeed (now : Nat) : Color :=
  Color.Single (RefreshableData.empty HSBK 15 Message.LightGet now)

/-- The full effect of a recognised `StateVersion` reply on a record:
model overwritten and `color` reassigned to a freshly seeded field. -/
def verAssign (b : BulbInfo) (now : Nat) (v p : Nat) (info : ProductInfo) :
    BulbInfo :=
  let c : Color := if info.multizone then multiSeed now else singleSeed now
  { b with model := b.model.update now (v, p), color := c }

/-- The zone vector held by a record's `Color::Multi` field, if any. -/
def colorDataOf (b : BulbInfo) : Option (List (Option HSBK)) :=
  match b.color with
  | Color.Multi d => d.data
  | _ => none

/-! Concrete fixtures used by witnesses and counterexamples. -/

/-- A concrete colour value. -/
def exColor : HSBK :=
  { hue := 120, saturation := 65535, brightness := 65535, kelvin := 3500 }

/-- A capability table that knows one multizone product (vendor 1,
product 55, the spec's example). -/
def lookupW : ProductLookup := fun v p =>
  if v = 1 ∧ p = 55 then some { multizone := true, extended := true }
  else none

/-- A capability table that recognises nothing. -/
def lookup0 : ProductLookup := fun _ _ => none

/-- A concrete socket address. -/
def addrW : SocketAddr := { ip := 1, port := 56700 }

/-- A freshly created record, as the receiver loop would insert it. -/
def bulbFresh : BulbInfo := BulbInfo.new 1 170 addrW 0

/-- A record already in the multizone state with no zone vector yet. -/
def bulbMultiEmpty : BulbInfo := { bulbFresh with color := multiSeed 0 }

/-- A stored one-entry zone vector. -/
def storedZoneData : List (Option HSBK) := [some exColor]

/-- A record in the multizone state holding `storedZoneData`. -/
def bulbMultiStored : BulbInfo :=
  let d : RefreshableData (List (Option HSBK)) :=
    { data := some storedZoneData, max_age := 15, last_updated := 0,
      refresh_msg := Message.GetColorZones 0 255 }
  { bulbFresh with color := Color.Multi d }

/-- A send pipeline that fails every send with a fixed error. -/
def failSend : Message → Except SendError Unit :=
  fun _ => Except.error { code := 7 }

/-- The empty registry. -/
def reg0 : Registry := fun _ => none

/-- The registry after the first datagram from identity 170. -/
def regW : Registry := fun t => if t = 170 then some bulbFresh else reg0 t

/-- A concrete stored zone snapshot. -/
def zonesW : Zones :=
  { zones_count := 5, zone_index := 0, colors_count := 5, colors := [] }

/-- A record whose zone snapshot is present (so `set_strip_array` sends). -/
def bulbWithZones : BulbInfo :=
  { bulbFresh with zones := bulbFresh.zones.update 0 zonesW }

/-- A concrete non-loopback interface with a broadcast address. -/
def ifaceW : Ifv4 := { broadcast := some 99, loopback := false }

end BulbManager

namespace BulbManager

/-- Claim C5 (confirmed): for every refreshable field and every time,
`needs_refresh` is true iff the value is absent or the elapsed time since
`last_updated` exceeds `max_age`; hence a freshly created field is stale,
a field is not stale immediately after `update`, and it is stale again
once `max_age` has elapsed (strictly exceeded). -/
theorem needs_refresh_iff_stale (T : Type) (d : RefreshableData T) (v : T)
    (m now t : Nat) (msg : Message) :
    (d.needs_refresh now = true
      ↔ d.data = none ∨ now - d.last_updated > d.max_age)
    ∧ (RefreshableData.empty T m msg t).needs_refresh now = true
    ∧ (d.update now v).needs_refresh now = false
    ∧ (d.update t v).needs_refresh (t + d.max_age + 1) = true := by
  refine ⟨?_, ?_, ?_, ?_⟩
  · simp [RefreshableData.needs_refresh, Option.isNone_iff_eq_none]
  · simp [RefreshableData.needs_refresh, RefreshableData.empty]
  · simp [RefreshableData.needs_refresh, RefreshableData.update]
  · simp [RefreshableData.needs_refresh, RefreshableData.update]
    omega

/-- Claim C6 (confirmed): `update` is an unconditional overwrite: after
`update v` the current value is exactly `v`, the most recent update wins,
and replaying the identical update leaves the field identical. -/
theorem update_is_overwrite (T : Type) (d : RefreshableData T) (v w : T)
    (t t2 : Nat) :
    (d.update t v).as_ref = some v
    ∧ ((d.update t v).update t2 w).as_ref = some w
    ∧ (d.update t v).update t v = d.update t v :=
  ⟨rfl, rfl, rfl⟩

/-- Claim C7 (confirmed): an acknowledgment carrying sequence `seq` sets
the record's outbound sequence to `seq % 255 + 1`, which always lies in
`1..=255`; in particular 254 yields 255 and 255 wraps to 1. -/
theorem ack_advances_sequence (lookup : ProductLookup) (b : BulbInfo)
    (seq now : Nat) :
    handle_message lookup (Message.Acknowledgement seq) b now
      = some { b with options := { b.options with sequence := seq % 255 + 1 } }
    ∧ 1 ≤ seq % 255 + 1 ∧ seq % 255 + 1 ≤ 255
    ∧ 254 % 255 + 1 = 255 ∧ 255 % 255 + 1 = 1 := by
  refine ⟨rfl, Nat.le_add_left 1 _, ?_, by norm_num, by norm_num⟩
  have hlt : seq % 255 < 255 := Nat.mod_lt _ (by norm_num)
  omega

/-- Claim C3 (code bug): reading colours or zone length before any zone
reply arrived does not return an explicit absence/error result — the
source unwraps the empty option, which panics (the `none` outcome). -/
theorem read_before_zone_reply_panics :
    bulbFresh.zones.data = none
    ∧ bulbFresh.get_colors = none
    ∧ bulbFresh.get_length = none :=
  ⟨rfl, rfl, rfl⟩

/-- Claim C1 (code bug): a batched 8-zone report whose `index + 7` exceeds
the reported count, and a single-zone report whose index exceeds the
count, are not dropped: the `assert!` in the lazy-allocation closure
fails, which panics (the `none` outcome). -/
theorem zone_overflow_report_panics :
    handle_message lookupW
      (Message.StateMultiZone 5 0 exColor exColor exColor exColor exColor
        exColor exColor exColor) bulbMultiEmpty 0 = none
    ∧ handle_message lookupW (Message.StateZone 5 6 exColor) bulbMultiEmpty 0
        = none :=
  ⟨rfl, rfl⟩

/-- Claim C9 (confirmed): when the zone snapshot is absent,
`set_strip_array` sends no datagram at all and still returns success, so
the caller cannot tell the command was dropped. -/
theorem strip_array_silently_dropped (b : BulbInfo)
    (send : Message → Except SendError Unit) (colors : List HSBK)
    (duration : Nat) (h : b.zones.data = none) :
    b.set_strip_array colors duration send = Except.ok [] := by
  simp [BulbInfo.set_strip_array, RefreshableData.as_ref, h]

/-- Witness for claim C9 at a freshly created record and a failing send
pipeline: no send is attempted and the call succeeds. -/
theorem strip_array_silently_dropped_witness :
    bulbFresh.zones.data = none
    ∧ bulbFresh.set_strip_array [] 0 failSend = Except.ok [] :=
  ⟨rfl, strip_array_silently_dropped bulbFresh failSend [] 0 rfl⟩

/-- Claim C10 (confirmed): a version reply whose vendor/product pair the
capability table does not know still overwrites the model field, but
leaves the colour state exactly as it was (in particular at Unknown). -/
theorem unrecognized_version_leaves_color (lookup : ProductLookup)
    (b : BulbInfo) (v p now : Nat) (h : lookup v p = none) :
    handle_message lookup (Message.StateVersion v p) b now
      = some { b with model := b.model.update now (v, p) }
    ∧ ({ b with model := b.model.update now (v, p) } : BulbInfo).color
      = b.color := by
  refine ⟨?_, rfl⟩
  simp [handle_message, h]

/-- Witness for claim C10 at a fresh record and the empty capability
table: the model is stored, the colour state stays Unknown. -/
theorem unrecognized_version_leaves_color_witness :
    lookup0 1 99 = none
    ∧ handle_message lookup0 (Message.StateVersion 1 99) bulbFresh 0
        = some { bulbFresh with model := bulbFresh.model.update 0 (1, 99) } :=
  ⟨rfl, (unrecognized_version_leaves_color lookup0 bulbFresh 1 99 0 rfl).1⟩

/-- Counterexample to claim C2: a record already in the multizone state
with a stored zone vector receives a second, identical version reply for
a recognised multizone product; the stored zone data is not left in
place — the colour state is reassigned to a freshly emptied field. -/
theorem repeat_version_reply_resets_zone_data :
    colorDataOf bulbMultiStored = some storedZoneData
    ∧ (handle_message lookupW (Message.StateVersion 1 55) bulbMultiStored
        0).map colorDataOf = some none :=
  ⟨rfl, rfl⟩

/-- Claim C2 as amended: every record starts with colour state Unknown;
no message other than a version reply ever changes the variant, and a
version reply whose product the capability table does not recognise
changes only the model field, leaving the colour state (hence the
variant) exactly as it was; a version reply whose product the table
recognises unconditionally reassigns the colour state — to MultiZone or
SingleZone per the reported capability — seeding a fresh empty field
each time (so a repeated reply resets stored colour data rather than
keeping it). -/
theorem color_variant_changes_only_on_version (lookup : ProductLookup)
    (b b' : BulbInfo) (m : Message) (now source target : Nat)
    (addr : SocketAddr)
    (hm : ∀ v p, m ≠ Message.StateVersion v p)
    (h : handle_message lookup m b now = some b') :
    (BulbInfo.new source target addr now).color.tag = ColorTag.unknown
    ∧ b'.color.tag = b.color.tag
    ∧ (∀ v p info, lookup v p = some info →
        handle_message lookup (Message.StateVersion v p) b now
          = some (verAssign b now v p info)
        ∧ (verAssign b now v p info).color.tag
          = (if info.multizone then ColorTag.multi else ColorTag.single)
        ∧ colorDataOf (verAssign b now v p info) = none)
    ∧ (∀ v p, lookup v p = none →
        handle_message lookup (Message.StateVersion v p) b now
          = some { b with model := b.model.update now (v, p) }
        ∧ ({ b with model := b.model.update now (v, p) } : BulbInfo).color
          = b.color) := by
  refine ⟨rfl, ?_, ?_, ?_⟩
  · cases m with
    | StateVersion v p => exact absurd rfl (hm v p)
    | LightState c pw lb =>
        cases hc : b.color with
        | Unknown => simp [handle_message, hc] at h; subst h; simp [hc]
        | Single d =>
            simp [handle_message, hc] at h; subst h
            simp [Color.tag, hc]
        | Multi d => simp [handle_message, hc] at h; subst h; simp [hc]
    | StateZone count index color =>
        cases hc : b.color with
        | Unknown => simp [handle_message, hc] at h; subst h; simp [hc]
        | Single d => simp [handle_message, hc] at h; subst h; simp [hc]
        | Multi d =>
            cases hd : d.data with
            | some v =>
                simp [handle_message, hc, hd] at h
                obtain ⟨hlen, h⟩ := h
                subst h
                simp [Color.tag, hc]
            | none =>
                by_cases hic : index ≤ count
                · simp [handle_message, hc, hd, hic] at h
                  obtain ⟨hlen, h⟩ := h
                  subst h
                  simp [Color.tag, hc]
                · simp [handle_message, hc, hd, hic] at h
    | StateMultiZone count index c0 c1 c2 c3 c4 c5 c6 c7 =>
        cases hc : b.color with
        | Unknown => simp [handle_message, hc] at h; subst h; simp [hc]
        | Single d => simp [handle_message, hc] at h; subst h; simp [hc]
        | Multi d =>
            cases hd : d.data with
            | some v =>
                simp [handle_message, hc, hd] at h
                obtain ⟨hlen, h⟩ := h
                subst h
                simp [Color.tag, hc]
            | none =>
                by_cases hic : index + 7 ≤ count
                · simp [handle_message, hc, hd, hic] at h
                  obtain ⟨hlen, h⟩ := h
                  subst h
                  simp [Color.tag, hc]
                · simp [handle_message, hc, hd, hic] at h
    | _ =>
        simp [handle_message] at h
        subst h
        rfl
  · intro v p info hinfo
    obtain ⟨mz, ext⟩ := info
    cases mz <;>
      exact ⟨by simp [handle_message, hinfo, verAssign, multiSeed, singleSeed],
        by simp [verAssign, multiSeed, singleSeed, Color.tag],
        by simp [colorDataOf, verAssign, multiSeed, singleSeed,
          RefreshableData.empty]⟩
  · intro v p hlook
    exact ⟨by simp [handle_message, hlook], rfl⟩

/-- Witness for the amended claim C2, applied at a fresh record and a
message that is not a version reply. -/
theorem color_variant_changes_only_on_version_witness :
    (BulbInfo.new 1 170 addrW 0).color.tag = ColorTag.unknown
    ∧ bulbFresh.color.tag = bulbFresh.color.tag :=
  ⟨(color_variant_changes_only_on_version lookup0 bulbFresh bulbFresh
      Message.GetService 0 1 170 addrW (fun _ _ hq => Message.noConfusion hq)
      rfl).1,
    (color_variant_changes_only_on_version lookup0 bulbFresh bulbFresh
      Message.GetService 0 1 170 addrW (fun _ _ hq => Message.noConfusion hq)
      rfl).2.1⟩

/-- Counterexample to claim C4: a refresh sweep over a registry holding
one fresh record, with a send pipeline that fails, does not surface an
error to the caller — the source unwraps the per-record query result,
which panics (the `none` outcome). -/
theorem refresh_send_failure_panics :
    refresh lookup0 [bulbFresh] failSend 0 = none :=
  rfl

/-- Claim C4 as amended: the network-facing operations — the command
operations (toggle, set power, set power with duration, set colour, and
set zone array whenever it sends at all), `discover` on every
non-loopback broadcast-capable interface, and `add_bulb` — surface a
failing send to the caller as the error value; `refresh`, however,
unwraps the per-record query result, so a send failure during a refresh
sweep panics (while the registry guard is held) instead of being
returned. -/
theorem send_failure_surfacing (b : BulbInfo) (e : SendError)
    (lookup : ProductLookup) (now level duration : Nat) (pl : PowerLevel)
    (c : HSBK) (colors : List HSBK) (z : Zones) (i : Ifv4) (bc : Nat)
    (ifaces : List Ifv4) (addr : SocketAddr)
    (hstale : b.name.needs_refresh now = true)
    (hz : b.zones.data = some z)
    (hbc : i.broadcast = some bc) (hlb : i.loopback = false) :
    b.toggle_bulb (fun _ => Except.error e) = Except.error e
    ∧ BulbInfo.set_power b pl (fun _ => Except.error e) = Except.error e
    ∧ BulbInfo.set_power_duration b level duration (fun _ => Except.error e)
        = Except.error e
    ∧ BulbInfo.set_bulb_color b c duration (fun _ => Except.error e)
        = Except.error e
    ∧ b.set_strip_array colors duration (fun _ => Except.error e)
        = Except.error e
    ∧ discover (i :: ifaces) (fun _ => Except.error e) = Except.error e
    ∧ add_bulb addr (fun _ => Except.error e) = Except.error e
    ∧ refresh lookup [b] (fun _ => Except.error e) now = none := by
  have hq : BulbInfo.query_for_missing_info lookup b
      (fun _ => Except.error e) now = Except.error e := by
    simp [BulbInfo.query_for_missing_info, BulbInfo.refresh_if_needed,
      hstale, seqE]
  refine ⟨rfl, rfl, rfl, rfl, ?_, ?_, rfl, ?_⟩
  · simp [BulbInfo.set_strip_array, RefreshableData.as_ref, hz]
  · simp [discover, hbc, hlb, seqE]
  · simp [refresh, List.foldl, hq]

/-- Witness for the amended claim C4 at a record with a stored zone
snapshot and a stale name field, one broadcast-capable interface, and an
always-failing send pipeline. -/
theorem send_failure_surfacing_witness :
    bulbWithZones.name.needs_refresh 0 = true
    ∧ bulbWithZones.zones.data = some zonesW
    ∧ ifaceW.broadcast = some 99
    ∧ ifaceW.loopback = false
    ∧ bulbWithZones.toggle_bulb (fun _ => Except.error { code := 7 })
        = Except.error { code := 7 }
    ∧ bulbWithZones.set_strip_array [] 0 (fun _ => Except.error { code := 7 })
        = Except.error { code := 7 }
    ∧ discover [ifaceW] (fun _ => Except.error { code := 7 })
        = Except.error { code := 7 }
    ∧ add_bulb addrW (fun _ => Except.error { code := 7 })
        = Except.error { code := 7 }
    ∧ refresh lookup0 [bulbWithZones] (fun _ => Except.error { code := 7 }) 0
        = none := by
  have h := send_failure_surfacing bulbWithZones { code := 7 } lookup0 0 0 0
    PowerLevel.Enabled exColor [] zonesW ifaceW 99 [] addrW (by decide) rfl
    rfl rfl
  exact ⟨by decide, rfl, rfl, rfl, h.1, h.2.2.2.2.1, h.2.2.2.2.2.1,
    h.2.2.2.2.2.2.1, h.2.2.2.2.2.2.2⟩

/-- Claim C8 (confirmed): for a nonzero identity, one receiver-loop step
keys at most one record by that identity: on a miss a single fresh
record is inserted, on a hit that same record is updated (address and
last-seen refreshed, then the message applied), and entries under every
other identity are untouched. -/
theorem registry_single_record (source : Nat) (lookup : ProductLookup)
    (reg : Registry) (t : Nat) (addr : SocketAddr) (msg : Message)
    (now : Nat) (reg' : Registry) (ht : t ≠ 0)
    (h : worker_step source lookup reg t addr msg now = some reg') :
    (reg' t).isSome = true
    ∧ (∀ u, u ≠ t → reg' u = reg u)
    ∧ (reg t = none →
        reg' t = handle_message lookup msg (BulbInfo.new source t addr now)
          now)
    ∧ (∀ b, reg t = some b →
        reg' t = handle_message lookup msg (b.update_seen addr now) now) := by
  rw [worker_step, if_neg ht] at h
  cases hr : reg t with
  | none =>
      rw [hr] at h
      dsimp only at h
      cases hm2 : handle_message lookup msg (BulbInfo.new source t addr now)
          now with
      | none => rw [hm2] at h; exact absurd h (by simp)
      | some b2 =>
          rw [hm2] at h
          simp at h
          subst h
          refine ⟨by simp, ?_, ?_, ?_⟩
          · intro u hu; simp [if_neg hu]
          · intro _; simp [hm2]
          · intro b1 hb; exact Option.noConfusion hb
  | some b =>
      rw [hr] at h
      dsimp only at h
      cases hm2 : handle_message lookup msg (b.update_seen addr now) now with
      | none => rw [hm2] at h; exact absurd h (by simp)
      | some b2 =>
          rw [hm2] at h
          simp at h
          subst h
          refine ⟨by simp, ?_, ?_, ?_⟩
          · intro u hu; simp [if_neg hu]
          · intro hn; exact Option.noConfusion hn
          · intro b0 hb
            injection hb with hbe
            subst hbe
            simp [hm2]

/-- Witness for claim C8: the first datagram from identity 170 on an
empty registry creates exactly the record at key 170, leaving key 171
empty. -/
theorem registry_single_record_witness :
    (regW 170).isSome = true ∧ regW 171 = reg0 171 := by
  have h := registry_single_record 1 lookup0 reg0 170 addrW Message.GetService
    0 regW (by decide) rfl
  exact ⟨h.1, h.2.1 171 (by decide)⟩

end BulbManager
